import Mathlib

/-!
Verification of the score-reviewer PDF acquisition pipeline.

Shallow embedding of:
* the process-pdf endpoint (primary puppeteer variant of
  src/src/app/api/process-pdf/route.ts), with browser, network and S3
  effects abstracted into an oracle environment and an event trace;
* the regex-based PDF locator shared by the playwright pipeline variant
  and the proxy endpoint;
* the proxy GET endpoint;
* the approval handler of the review page;
* the in-process ApprovalQueue that serializes spreadsheet writes.
-/

deriving instance DecidableEq for Except

namespace ScoreReviewer

/-- Boolean contiguous-sublist test: true iff needle occurs inside
haystack. -/
def listIsInfix (needle : List Char) : List Char → Bool
  | [] => needle.isEmpty
  | c :: cs => needle.isPrefixOf (c :: cs) || listIsInfix needle cs

/-- Boolean substring test, modelling JavaScript `haystack.includes(needle)`. -/
def strIncludes (haystack needle : String) : Bool :=
  listIsInfix needle.toList haystack.toList

/-- Boolean suffix test, modelling JavaScript `s.endsWith(suffix)`. -/
def endsWithStr (s suffix : String) : Bool :=
  suffix.toList.isSuffixOf s.toList

/-- Character-wise lowercase, modelling `s.toLowerCase()` on the ASCII
URLs handled here. -/
def lowerStr (s : String) : String := String.mk (s.toList.map Char.toLower)

/-- Substring test on an optional string, modelling `s?.includes(needle)`
(false when the string is null or undefined). -/
def optIncludes (o : Option String) (needle : String) : Bool :=
  match o with
  | some s => strIncludes s needle
  | none => false

/-- S3 bucket constant of the process-pdf route. -/
def BUCKET_NAME : String := "tonebase-emails"

/-- S3 region constant of the process-pdf route. -/
def REGION : String := "us-east-1"

/-- Upload key directory (the constant the source spells with the word
for a leading path segment: Q2_2021/Q2W4/Scores/general). -/
def APPROVED_DIR : String := "Q2_2021/Q2W4/Scores/general"

/-- Navigation timeout passed to page.goto. -/
def NAV_TIMEOUT_MS : Nat := 30000

/-- Timeout passed to waitForSelector for the confirmation control. -/
def GATE_TIMEOUT_MS : Nat := 5000

/-- Pause after clicking the confirmation control. -/
def CLICK_SETTLE_MS : Nat := 1000

/-- HTTP response as observed through the browser driver: status code,
the content-type header (none when absent), and the body bytes returned
by response.buffer(). -/
structure Response where
  status : Nat
  contentType : Option String
  body : List Nat
deriving DecidableEq

/-- Anchor element as read by the page.evaluate link scan: its href
property and data-id attribute. -/
structure DomLink where
  href : Option String
  dataId : Option String
deriving DecidableEq

/-- Outcome of reading and parsing the IMSLP_COOKIES environment variable. -/
inductive CookiesCfg where
  | ok
  | missing
  | invalid
deriving DecidableEq

/-- Oracle environment: the outcome of every external interaction a
single request can perform; error values carry the thrown message. -/
structure Env where
  cookiesCfg : CookiesCfg
  browserConnect : Except String Unit
  newPage : Except String Unit
  pageCookiesOk : Bool
  navResult : Except String (Option Response)
  gateAppearsMs : Option Nat
  domLinks : List DomLink
  dlResult : Except String (Option Response)
  uploadOk : Bool
deriving DecidableEq

/-- Observable actions of one request, in order of occurrence. -/
inductive Event where
  | browserAcquired
  | browserReleased
  | gateCheck
  | gateClick
  | locate
  | s3Put (key : String) (body : List Nat)
deriving DecidableEq

/-- JSON body of the endpoint response. -/
inductive ApiBody where
  | success (url : String)
  | failure (error : String) (details : Option String)
deriving DecidableEq

/-- Endpoint response: HTTP status plus JSON body. -/
structure HttpOut where
  status : Nat
  body : ApiBody
deriving DecidableEq

/-- S3 object key: APPROVED_DIR joined with the slug and the pdf suffix. -/
def newKey (slug : String) : String :=
  APPROVED_DIR ++ "/" ++ slug ++ ".pdf"

/-- Public URL template of the source. -/
def publicUrl (slug : String) : String :=
  "https://" ++ BUCKET_NAME ++ ".s3." ++ REGION ++ ".amazonaws.com/" ++ newKey slug

/-- Success response of the handler. -/
def successOut (slug : String) : HttpOut :=
  ⟨200, ApiBody.success (publicUrl slug)⟩

/-- Catch-block response of the handler. -/
def catchOut (msg : String) : HttpOut :=
  ⟨500, ApiBody.failure "Failed to process PDF" (some msg)⟩

/-- Early 400 response for a missing scoreUrl or slug. -/
def missingParamsOut : HttpOut :=
  ⟨400, ApiBody.failure "Missing required parameters" none⟩

/-- waitForSelector resolves iff the confirmation control appears within
the GATE_TIMEOUT_MS timeout passed at the call site. -/
def gateFound (env : Env) : Bool :=
  match env.gateAppearsMs with
  | some t => decide (t ≤ GATE_TIMEOUT_MS)
  | none => false

/-- Events of the interstitial-dismissal step: the wait always happens;
the click happens exactly when the control was found; absence is caught
and execution continues. -/
def gateTrace (env : Env) : List Event :=
  Event.gateCheck :: (if gateFound env then [Event.gateClick] else [])

/-- page.evaluate link scan: first anchor whose href or data-id contains
".pdf". -/
def findPdfDomLink (links : List DomLink) : Option DomLink :=
  links.find? (fun l => optIncludes l.href ".pdf" || optIncludes l.dataId ".pdf")

/-- Truthiness test downloadLink?.href performed by the handler: fails on
a missing link, a missing href, and an empty href string. -/
def foundHref (links : List DomLink) : Option String :=
  match findPdfDomLink links with
  | none => none
  | some l =>
    match l.href with
    | none => none
    | some h => if h = "" then none else some h

/-- PutObjectCommand sent to S3 with ContentType application/pdf; a
failed send is rethrown with a fixed message. -/
def uploadStep (env : Env) (slug : String) (body : List Nat) :
    Except String HttpOut × List Event :=
  (if env.uploadOk then Except.ok (successOut slug)
   else Except.error "Failed to upload PDF to S3",
   [Event.s3Put (newKey slug) body])

/-- Link lookup, PDF navigation, empty-body check and upload of the
download-page branch. The downloaded response's content-type is never
inspected by the source. -/
def downloadPart (env : Env) (slug : String) : Except String HttpOut × List Event :=
  match foundHref env.domLinks with
  | none => (Except.error "No download link found on IMSLP page", [])
  | some _ =>
    match env.dlResult with
    | Except.error msg => (Except.error msg, [])
    | Except.ok none => (Except.error "Failed to download PDF from IMSLP", [])
    | Except.ok (some r) =>
      if r.body.isEmpty then (Except.error "Downloaded PDF is empty", [])
      else uploadStep env slug r.body

/-- Download-page branch: interstitial handling, then link location and
download. -/
def indirectBranch (env : Env) (slug : String) : Except String HttpOut × List Event :=
  let d := downloadPart env slug
  (d.1, gateTrace env ++ Event.locate :: d.2)

/-- Direct branch: the navigation response body is the payload and is
uploaded without link location or interstitial handling. -/
def directBranch (env : Env) (slug : String) (resp : Response) :
    Except String HttpOut × List Event :=
  uploadStep env slug resp.body

/-- Steps after the browser connection: page creation, cookie read,
navigation, then the branch on the response content-type. The source
reads the response status only for logging and never branches on it. -/
def afterBrowser (env : Env) (slug : String) : Except String HttpOut × List Event :=
  match env.newPage with
  | Except.error msg => (Except.error msg, [])
  | Except.ok _ =>
    if !env.pageCookiesOk then (Except.error "Failed to set IMSLP cookies", [])
    else
      match env.navResult with
      | Except.error msg => (Except.error msg, [])
      | Except.ok none => (Except.error "Failed to get response from IMSLP page", [])
      | Except.ok (some resp) =>
        if strIncludes (resp.contentType.getD "") "application/pdf"
        then directBranch env slug resp
        else indirectBranch env slug

/-- Result of the try block together with its trace and whether the
browser local variable was assigned (tested by the finally block). -/
structure RunOut where
  result : Except String HttpOut
  trace : List Event
  browserSet : Bool
deriving DecidableEq

/-- Messages thrown while validating the IMSLP_COOKIES configuration. -/
def cookiesMsg : CookiesCfg → Option String
  | CookiesCfg.ok => none
  | CookiesCfg.missing => some "IMSLP_COOKIES environment variable is required"
  | CookiesCfg.invalid => some "Invalid IMSLP_COOKIES format. Must be a valid JSON array."

/-- Try block of the POST handler: parameter check, configuration check,
browser connect, then the per-page steps. -/
def tryBody (env : Env) (scoreUrl slug : String) : RunOut :=
  if scoreUrl = "" || slug = "" then ⟨Except.ok missingParamsOut, [], false⟩
  else
    match cookiesMsg env.cookiesCfg with
    | some msg => ⟨Except.error msg, [], false⟩
    | none =>
      match env.browserConnect with
      | Except.error msg => ⟨Except.error msg, [], false⟩
      | Except.ok _ =>
        let r := afterBrowser env slug
        ⟨r.1, Event.browserAcquired :: r.2, true⟩

/-- Full POST handler: try body, catch producing the structured failure
response, and the finally block releasing the browser whenever it was
acquired. -/
def POST (env : Env) (scoreUrl slug : String) : HttpOut × List Event :=
  let r := tryBody env scoreUrl slug
  let out :=
    match r.result with
    | Except.ok h => h
    | Except.error msg => catchOut msg
  (out, if r.browserSet then r.trace ++ [Event.browserReleased] else r.trace)

/-! Regex-based PDF locator shared by the playwright pipeline variant and
the proxy endpoint. The four patterns capture a quote-free URL that
starts with the secure scheme and contains the pdf extension after at
least one further character, closed by the next quote; the scan returns
the leftmost full match, as JavaScript String.match does for a
non-global regex. -/

/-- Single-quote character, kept as a named constant. -/
def squote : Char := Char.ofNat 39

/-- Characters before the first stop character; none when no stop
character follows (the regex then cannot close the quote and fails at
this position). -/
def breakBefore (stops : List Char) : List Char → Option (List Char)
  | [] => none
  | c :: cs =>
    if c ∈ stops then some []
    else
      match breakBefore stops cs with
      | some r => some (c :: r)
      | none => none

/-- Capture-group shape: the secure scheme, at least one character, then
the pdf extension, then anything up to the closing quote. -/
def validCapture (s : List Char) : Bool :=
  "https://".toList.isPrefixOf s && listIsInfix ".pdf".toList (s.drop 9)

/-- Match attempt at one position for the three literal-opened patterns:
the literal, then the capture up to the next double quote. -/
def tryLitPat (lit : List Char) (t : List Char) : Option (List Char) :=
  if lit.isPrefixOf t then
    match breakBefore ['"'] (t.drop lit.length) with
    | some s => if validCapture s then some s else none
    | none => none
  else none

/-- Leftmost-match scan: try the pattern matcher at every position from
the left, first success wins. -/
def scanFor (f : List Char → Option (List Char)) : List Char → Option (List Char)
  | [] => none
  | c :: cs =>
    match f (c :: cs) with
    | some r => some r
    | none => scanFor f cs

/-- Whitespace class of the regexes. -/
def isSpaceChar (c : Char) : Bool := c.isWhitespace

/-- Match attempt at one position for the script-redirect pattern: the
location-assignment literal, optional whitespace, the equals sign,
optional whitespace, an opening quote of either kind, then the capture
up to the next quote of either kind. -/
def tryWinLoc (t : List Char) : Option (List Char) :=
  let lit := "window.location.href".toList
  if lit.isPrefixOf t then
    match (t.drop lit.length).dropWhile isSpaceChar with
    | [] => none
    | c :: r2 =>
      if c = '=' then
        match r2.dropWhile isSpaceChar with
        | [] => none
        | q :: r4 =>
          if q = '"' || q = squote then
            match breakBefore ['"', squote] r4 with
            | some s => if validCapture s then some s else none
            | none => none
          else none
      else none
  else none

/-- Pattern 1: anchor href attribute. -/
def hrefPat (content : String) : Option String :=
  Option.map String.mk (scanFor (tryLitPat "href=\"".toList) content.toList)

/-- Pattern 2: data-id attribute. -/
def dataIdPat (content : String) : Option String :=
  Option.map String.mk (scanFor (tryLitPat "data-id=\"".toList) content.toList)

/-- Pattern 3: JSON-embedded url field. -/
def jsonUrlPat (content : String) : Option String :=
  Option.map String.mk (scanFor (tryLitPat "\"url\":\"".toList) content.toList)

/-- Pattern 4: script-based redirect target. -/
def winLocPat (content : String) : Option String :=
  Option.map String.mk (scanFor tryWinLoc content.toList)

/-- for-loop over the four patterns in source order; the first pattern
that matches returns its capture. -/
def findPdfUrl (content : String) : Option String :=
  match hrefPat content with
  | some u => some u
  | none =>
    match dataIdPat content with
    | some u => some u
    | none =>
      match jsonUrlPat content with
      | some u => some u
      | none => winLocPat content

/-! Proxy GET endpoint. -/

/-- Response of the plain fetch client: status, content-type header,
text body and byte body. -/
structure FResp where
  status : Nat
  contentType : Option String
  text : String
  bytes : List Nat
deriving DecidableEq

/-- response.ok of the fetch API: status in the 2xx range. -/
def FResp.isOk (r : FResp) : Bool :=
  decide (200 ≤ r.status) && decide (r.status < 300)

/-- Oracle environment for one proxy request: outcomes of the up to two
fetches it can perform; error values model a rejected fetch. -/
structure ProxyEnv where
  pageFetch : Except String FResp
  pdfFetch : Except String FResp
  directFetch : Except String FResp
deriving DecidableEq

/-- Responses of the proxy endpoint: json error payloads with their HTTP
status, or raw bytes served with the Content-Type header set to
application/pdf and inline disposition. -/
inductive ProxyOut where
  | jsonErr (status : Nat) (error : String)
  | pdfBytes (bytes : List Nat)
deriving DecidableEq

/-- GET handler of the proxy route. -/
def proxyGET (url : Option String) (env : ProxyEnv) : ProxyOut :=
  match url with
  | none => ProxyOut.jsonErr 400 "URL parameter is required"
  | some u =>
    if strIncludes u "imslp.org" && !(endsWithStr (lowerStr u) ".pdf") then
      match env.pageFetch with
      | Except.error _ => ProxyOut.jsonErr 500 "Failed to proxy request"
      | Except.ok r =>
        if !r.isOk then ProxyOut.jsonErr r.status "Failed to fetch from IMSLP"
        else
          match findPdfUrl r.text with
          | some _ =>
            match env.pdfFetch with
            | Except.error _ => ProxyOut.jsonErr 500 "Failed to proxy request"
            | Except.ok p =>
              if !p.isOk then ProxyOut.jsonErr p.status "Failed to fetch PDF from IMSLP"
              else if !(optIncludes p.contentType "application/pdf") then
                ProxyOut.jsonErr 400 "Invalid content type from PDF URL"
              else ProxyOut.pdfBytes p.bytes
          | none => ProxyOut.jsonErr 404 "No PDF link found in IMSLP page"
    else
      match env.directFetch with
      | Except.error _ => ProxyOut.jsonErr 500 "Failed to proxy request"
      | Except.ok r =>
        if !r.isOk then ProxyOut.jsonErr r.status "Failed to fetch from URL"
        else if optIncludes r.contentType "application/pdf"
             || (endsWithStr (lowerStr u) ".pdf"
                 && optIncludes r.contentType "application/octet-stream") then
          ProxyOut.pdfBytes r.bytes
        else ProxyOut.jsonErr 400 "Invalid content type"

/-- Path component of a URL string: everything before the query string. -/
def urlPath (u : String) : String :=
  String.mk (u.toList.takeWhile (fun c => c ≠ '?'))

/-! Approval handler of the review page. -/

/-- Outcome of the process-pdf call as seen by the approval handler: a
success carrying the republished URL, a non-ok response, or a rejected
fetch. -/
inductive PdfOutcome where
  | ok (url : String)
  | notOk
  | netThrow
deriving DecidableEq

/-- Outcome of a collaborator call. -/
inductive CallOutcome where
  | ok
  | notOk
  | netThrow
deriving DecidableEq

/-- Oracle environment of one approval action. -/
structure ApproveEnv where
  pdfOutcome : PdfOutcome
  dbOutcome : CallOutcome
  sheetsOutcome : CallOutcome
deriving DecidableEq

/-- Observable steps of one approval action, in order. -/
inductive ApproveStep where
  | callPdf
  | callDb (url : String)
  | callSheets (url : String)
  | setErrorStep
  | restoreStep
  | throwStep
deriving DecidableEq

/-- Step constructor tag, forgetting the URL argument. -/
def stepTag : ApproveStep → Nat
  | ApproveStep.callPdf => 0
  | ApproveStep.callDb _ => 1
  | ApproveStep.callSheets _ => 2
  | ApproveStep.setErrorStep => 3
  | ApproveStep.restoreStep => 4
  | ApproveStep.throwStep => 5

/-- Result of one approval action: the URL recorded for the score and
the ordered steps performed. -/
structure ApproveRun where
  recordedUrl : String
  steps : List ApproveStep
deriving DecidableEq

/-- handleApprove control flow once a current score exists: the pdf call
inside its own try/catch falling back to the original URL, the database
update whose failure reaches the outer catch, the spreadsheet call that
always runs, and the deferred rethrow of a non-ok database update. -/
def handleApprove (env : ApproveEnv) (originalUrl : String) : ApproveRun :=
  let newScoreUrl :=
    match env.pdfOutcome with
    | PdfOutcome.ok u => u
    | _ => originalUrl
  let outerCatch :=
    match env.dbOutcome with
    | CallOutcome.ok => []
    | _ => [ApproveStep.setErrorStep, ApproveStep.restoreStep]
  let finalThrow :=
    match env.dbOutcome with
    | CallOutcome.notOk => [ApproveStep.throwStep]
    | _ => []
  ⟨newScoreUrl,
   ApproveStep.callPdf :: ApproveStep.callDb newScoreUrl :: outerCatch
     ++ ApproveStep.callSheets newScoreUrl :: finalThrow⟩

/-! ApprovalQueue: an in-process FIFO serializing spreadsheet mutations.
Tasks are modelled by the order in which add was called, task number n
being the n-th call. The labelled transition system below mirrors the
atomic segments of the source between await points: add runs
synchronously through the first section of processQueue, and a task
completion runs the wrapper settlement plus the finally block through
the next synchronous section of processQueue. -/

/-- Queue state: the id counter, the pending queue, the processing flag,
the multiset of currently executing tasks (kept as a list so that mutual
exclusion is a provable property rather than a structural one), the log
of tasks in start order, and the log of settled caller promises with
their outcome (false records a rejection from a thrown task). -/
structure QState where
  nextId : Nat
  queue : List Nat
  processing : Bool
  running : List Nat
  started : List Nat
  settled : List (Nat × Bool)
deriving DecidableEq

/-- Initial queue state. -/
def QState.init : QState := ⟨0, [], false, [], [], []⟩

/-- Synchronous prefix of processQueue: return if already processing or
empty, otherwise set the flag and begin the head task. -/
def startNext (s : QState) : QState :=
  if s.processing then s
  else
    match s.queue with
    | [] => s
    | t :: rest =>
      { s with processing := true, queue := rest,
               running := s.running ++ [t], started := s.started ++ [t] }

/-- add: push the wrapped task, then call processQueue. -/
def enqueueF (s : QState) : QState :=
  startNext { s with queue := s.queue ++ [s.nextId], nextId := s.nextId + 1 }

/-- Completion of the running task with outcome b: the wrapper settles
the caller promise (and never rethrows into the queue), then the finally
block clears the flag and continues with the next queued task. -/
def finishF (s : QState) (b : Bool) : QState :=
  match s.running with
  | [] => s
  | t :: rest =>
    startNext { s with running := rest, processing := false,
                       settled := s.settled ++ [(t, b)] }

/-- Reachable queue states. -/
inductive Reach : QState → Prop where
  | init : Reach QState.init
  | enqueue {s : QState} : Reach s → Reach (enqueueF s)
  | finish {s : QState} (b : Bool) : Reach s → Reach (finishF s b)

/-- Run a sequence of task completions with the given outcomes. -/
def drain (s : QState) : List Bool → QState
  | [] => s
  | b :: bs => drain (finishF s b) bs

/-! Concrete environments used to evaluate the embedding. -/

/-- Environment of a fully successful direct-PDF run. -/
def envOK : Env :=
  { cookiesCfg := CookiesCfg.ok
  , browserConnect := Except.ok ()
  , newPage := Except.ok ()
  , pageCookiesOk := true
  , navResult := Except.ok (some { status := 200, contentType := some "application/pdf", body := [1, 2] })
  , gateAppearsMs := none
  , domLinks := []
  , dlResult := Except.ok none
  , uploadOk := true }

/-- Environment whose source fetch returns a 404 HTML page that still
contains a usable download link. -/
def env404 : Env :=
  { envOK with
      navResult := Except.ok (some { status := 404, contentType := some "text/html", body := [] })
    , domLinks := [{ href := some "https://host/x.pdf", dataId := none }]
    , dlResult := Except.ok (some { status := 200, contentType := some "application/pdf", body := [9] }) }

/-- Environment whose source fetch returns a 404 HTML page with no
download link. -/
def envNoLink : Env :=
  { envOK with
      navResult := Except.ok (some { status := 404, contentType := some "text/html", body := [] })
    , domLinks := [] }

/-- Environment reaching the interstitial with a control that appears
after three seconds, and then failing to find a link. -/
def envGate : Env :=
  { envNoLink with gateAppearsMs := some 3000 }

/-- Environment whose located download resolves to a non-empty payload
declared as HTML. -/
def envNonPdfDl : Env :=
  { envOK with
      navResult := Except.ok (some { status := 200, contentType := some "text/html", body := [] })
    , domLinks := [{ href := some "https://host/x.pdf", dataId := none }]
    , dlResult := Except.ok (some { status := 200, contentType := some "text/html", body := [1, 2, 3] }) }

/-- Environment whose direct navigation response is an empty PDF body. -/
def envEmptyDirect : Env :=
  { envOK with navResult := Except.ok (some { status := 200, contentType := some "application/pdf", body := [] }) }

/-- Environment whose located download resolves to an empty payload. -/
def envEmptyIndirect : Env :=
  { envNonPdfDl with dlResult := Except.ok (some { status := 200, contentType := some "application/pdf", body := [] }) }

/-- Proxy environment whose direct fetch yields octet-stream bytes. -/
def proxEnvOctet : ProxyEnv :=
  { pageFetch := Except.error "unused"
  , pdfFetch := Except.error "unused"
  , directFetch := Except.ok { status := 200, contentType := some "application/octet-stream", text := "", bytes := [37, 80] } }

/-- Proxy environment whose page fetch yields an HTML page with no PDF
link. -/
def proxEnvNoLink : ProxyEnv :=
  { pageFetch := Except.ok { status := 200, contentType := some "text/html", text := "no links here", bytes := [] }
  , pdfFetch := Except.error "unused"
  , directFetch := Except.error "unused" }

/-- Document with a single qualifying anchor. -/
def anchorDoc : String :=
  "<html><body><a href=\"https://host/x.pdf\">Download</a></body></html>"

/-- Document matching the data-id pattern only. -/
def dataIdDoc : String :=
  "<div data-id=\"https://host/a.pdf\"></div>"

/-- Document where the data-id pattern occurs before the anchor pattern
in text order. -/
def multiDoc : String :=
  "<div data-id=\"https://host/a.pdf\"></div><a href=\"https://host/b.pdf\">d</a>"

/-- Number of occurrences of an event in a trace. -/
def countEv (e : Event) : List Event → Nat
  | [] => 0
  | x :: xs => (if x = e then 1 else 0) + countEv e xs

/-- Invariant of the queue state: at most one task executes, the flag
tracks whether one does, an idle queue is empty, and the begun tasks
followed by the pending ones are exactly the enqueued ids in arrival
order. -/
def QInv (s : QState) : Prop :=
  s.running.length ≤ 1
  ∧ (s.processing = true ↔ s.running ≠ [])
  ∧ (s.processing = false → s.queue = [])
  ∧ s.started ++ s.queue = List.range s.nextId

/-! Theorems. -/

/-- Append on strings is associative. -/
theorem strAppendAssoc (a b c : String) : a ++ b ++ c = a ++ (b ++ c) := by
  apply String.ext
  simp

/-- The URL template flattens to a single literal prefix around the slug. -/
theorem publicUrl_flat (s : String) :
    publicUrl s
      = "https://tonebase-emails.s3.us-east-1.amazonaws.com/Q2_2021/Q2W4/Scores/general/"
        ++ s ++ ".pdf" := by
  have h : "https://" ++ BUCKET_NAME ++ ".s3." ++ REGION ++ ".amazonaws.com/"
        ++ APPROVED_DIR ++ "/"
      = "https://tonebase-emails.s3.us-east-1.amazonaws.com/Q2_2021/Q2W4/Scores/general/" := by
    decide
  rw [← h]
  simp only [publicUrl, newKey, strAppendAssoc]

/-- A successful upload step returns the success response of the slug. -/
theorem uploadStep_ok (env : Env) (slug : String) (body : List Nat) (h : HttpOut)
    (hu : (uploadStep env slug body).1 = Except.ok h) : h = successOut slug := by
  unfold uploadStep at hu
  by_cases hup : env.uploadOk
  · simp [hup] at hu
    exact hu.symm
  · simp [hup] at hu

/-- The download branch succeeds only with the success response of the slug. -/
theorem downloadPart_ok (env : Env) (slug : String) (h : HttpOut)
    (hd : (downloadPart env slug).1 = Except.ok h) : h = successOut slug := by
  unfold downloadPart at hd
  split at hd
  · simp at hd
  · split at hd
    · simp at hd
    · simp at hd
    · split at hd
      · simp at hd
      · exact uploadStep_ok _ _ _ _ hd

/-- First component of the indirect branch. -/
theorem indirectBranch_fst (env : Env) (s : String) :
    (indirectBranch env s).1 = (downloadPart env s).1 := rfl

/-- First component of the direct branch. -/
theorem directBranch_fst (env : Env) (s : String) (r : Response) :
    (directBranch env s r).1 = (uploadStep env s r.body).1 := rfl

/-- The page steps succeed only with the success response of the slug. -/
theorem afterBrowser_ok (env : Env) (s : String) (h : HttpOut)
    (ha : (afterBrowser env s).1 = Except.ok h) : h = successOut s := by
  unfold afterBrowser at ha
  split at ha
  · simp at ha
  · split at ha
    · simp at ha
    · split at ha
      · simp at ha
      · simp at ha
      · split at ha
        · rw [directBranch_fst] at ha
          exact uploadStep_ok _ _ _ _ ha
        · rw [indirectBranch_fst] at ha
          exact downloadPart_ok _ _ _ ha

/-- The try block succeeds only with the missing-parameter response or
the success response of the slug. -/
theorem tryBody_ok (env : Env) (u s : String) (h : HttpOut)
    (ht : (tryBody env u s).result = Except.ok h) :
    h = missingParamsOut ∨ h = successOut s := by
  unfold tryBody at ht
  split at ht
  · left
    simp at ht
    exact ht.symm
  · split at ht
    · simp at ht
    · split at ht
      · simp at ht
      · right
        simp only at ht
        exact afterBrowser_ok _ _ _ ht

/-- A success body always carries the public URL of the slug. -/
theorem post_body_success (env : Env) (u s : String) (w : String)
    (h : (POST env u s).1.body = ApiBody.success w) : w = publicUrl s := by
  cases hres : (tryBody env u s).result with
  | error m =>
    have hp : (POST env u s).1 = catchOut m := by
      simp [POST, hres]
    rw [hp] at h
    simp [catchOut] at h
  | ok hh =>
    have hp : (POST env u s).1 = hh := by
      simp [POST, hres]
    rw [hp] at h
    rcases tryBody_ok env u s hh hres with h1 | h1
    · rw [h1] at h
      simp [missingParamsOut] at h
    · rw [h1] at h
      simp [successOut] at h
      exact h.symm

/-- C1: every successful acquisition run returns exactly the public URL
built from the fixed bucket, region and prefix constants around the slug,
so two successful runs with the same slug (whatever their environments
and source URLs) return equal URL strings. -/
theorem C1_public_url :
    (∀ (env : Env) (u s w : String), (POST env u s).1.body = ApiBody.success w →
      w = "https://tonebase-emails.s3.us-east-1.amazonaws.com/Q2_2021/Q2W4/Scores/general/"
          ++ s ++ ".pdf")
    ∧ (∀ (env1 env2 : Env) (u1 u2 s w1 w2 : String),
        (POST env1 u1 s).1.body = ApiBody.success w1 →
        (POST env2 u2 s).1.body = ApiBody.success w2 → w1 = w2) := by
  constructor
  · intro env u s w h
    rw [post_body_success env u s w h, publicUrl_flat]
  · intro e1 e2 u1 u2 s w1 w2 h1 h2
    rw [post_body_success e1 u1 s w1 h1, post_body_success e2 u2 s w2 h2]

/-- C1 witness: a concrete successful run returns the concrete URL. -/
theorem C1_witness :
    (POST envOK "https://imslp.org/wiki/T" "bach-bwv846").1.body
      = ApiBody.success
          ("https://tonebase-emails.s3.us-east-1.amazonaws.com/Q2_2021/Q2W4/Scores/general/"
            ++ "bach-bwv846" ++ ".pdf") := by
  have hb : (POST envOK "https://imslp.org/wiki/T" "bach-bwv846").1.body
      = ApiBody.success (publicUrl "bach-bwv846") := by decide
  have h := C1_public_url.1 envOK "https://imslp.org/wiki/T" "bach-bwv846"
      (publicUrl "bach-bwv846") hb
  rw [hb, h]

/-- Shape of the try block outcome: without a browser the trace is
empty, with one the trace starts with the acquisition event. -/
theorem tryBody_trace_cases (env : Env) (u s : String) :
    ((tryBody env u s).browserSet = false ∧ (tryBody env u s).trace = [])
    ∨ ((tryBody env u s).browserSet = true
       ∧ (tryBody env u s).trace = Event.browserAcquired :: (afterBrowser env s).2) := by
  unfold tryBody
  split
  · left
    exact ⟨rfl, rfl⟩
  · split
    · left
      exact ⟨rfl, rfl⟩
    · split
      · left
        exact ⟨rfl, rfl⟩
      · right
        exact ⟨rfl, rfl⟩

/-- C6: whenever a run's trace shows the browser being acquired, it also
shows the browser being released, and the release is the final action of
the run: no exit path ends while still holding the browser. -/
theorem C6_browser_release (env : Env) (u s : String)
    (h : Event.browserAcquired ∈ (POST env u s).2) :
    Event.browserReleased ∈ (POST env u s).2
    ∧ (POST env u s).2.getLast? = some Event.browserReleased := by
  rcases tryBody_trace_cases env u s with ⟨hb, htr⟩ | ⟨hb, htr⟩
  · have hempty : (POST env u s).2 = [] := by
      simp [POST, hb, htr]
    rw [hempty] at h
    simp at h
  · have h2 : (POST env u s).2
        = (Event.browserAcquired :: (afterBrowser env s).2) ++ [Event.browserReleased] := by
      simp [POST, hb, htr]
    rw [h2]
    constructor
    · simp
    · rw [List.cons_append, ← List.cons_append]
      exact List.getLast?_concat _

/-- C6 witness: the release event closes a concrete run. -/
theorem C6_witness :
    Event.browserReleased ∈ (POST envOK "u" "sl").2
    ∧ (POST envOK "u" "sl").2.getLast? = some Event.browserReleased :=
  C6_browser_release envOK "u" "sl" (by decide)

/-- Trace of a run whose navigation response is already a PDF. -/
theorem post_direct_trace (env : Env) (u s : String) (r : Response)
    (hu : ¬u = "") (hs : ¬s = "")
    (hc : env.cookiesCfg = CookiesCfg.ok)
    (hb : env.browserConnect = Except.ok ())
    (hp : env.newPage = Except.ok ())
    (hk : env.pageCookiesOk = true)
    (hn : env.navResult = Except.ok (some r))
    (hct : strIncludes (r.contentType.getD "") "application/pdf" = true) :
    (POST env u s).2
      = [Event.browserAcquired, Event.s3Put (newKey s) r.body, Event.browserReleased] := by
  simp [POST, tryBody, afterBrowser, directBranch, uploadStep, cookiesMsg,
        hu, hs, hc, hb, hp, hk, hn, hct]

/-- C2: when the source response declares itself a PDF, the run uploads
exactly the bytes of that response and performs neither link location
nor any interstitial handling. -/
theorem C2_direct_branch (env : Env) (u s : String) (r : Response)
    (hu : ¬u = "") (hs : ¬s = "")
    (hc : env.cookiesCfg = CookiesCfg.ok)
    (hb : env.browserConnect = Except.ok ())
    (hp : env.newPage = Except.ok ())
    (hk : env.pageCookiesOk = true)
    (hn : env.navResult = Except.ok (some r))
    (hct : strIncludes (r.contentType.getD "") "application/pdf" = true) :
    Event.s3Put (newKey s) r.body ∈ (POST env u s).2
    ∧ Event.locate ∉ (POST env u s).2
    ∧ Event.gateCheck ∉ (POST env u s).2
    ∧ Event.gateClick ∉ (POST env u s).2 := by
  rw [post_direct_trace env u s r hu hs hc hb hp hk hn hct]
  refine ⟨by simp, by simp, by simp, by simp⟩

/-- C2 witness: concrete direct-PDF run. -/
theorem C2_witness :
    Event.s3Put (newKey "sl") [1, 2] ∈ (POST envOK "u" "sl").2
    ∧ Event.locate ∉ (POST envOK "u" "sl").2
    ∧ Event.gateCheck ∉ (POST envOK "u" "sl").2
    ∧ Event.gateClick ∉ (POST envOK "u" "sl").2 :=
  C2_direct_branch envOK "u" "sl"
    { status := 200, contentType := some "application/pdf", body := [1, 2] }
    (by decide) (by decide) (by decide) (by decide) (by decide) (by decide)
    (by decide) (by decide)

/-- Events of the download part: empty, or a single put. -/
theorem downloadPart_events (env : Env) (s : String) :
    (downloadPart env s).2 = []
    ∨ ∃ k b, (downloadPart env s).2 = [Event.s3Put k b] := by
  unfold downloadPart uploadStep
  split
  · left; rfl
  · split
    · left; rfl
    · left; rfl
    · split
      · left; rfl
      · right; exact ⟨_, _, rfl⟩

/-- Trace of a run that reaches the download page. -/
theorem post_indirect_trace (env : Env) (u s : String) (r : Response)
    (hu : ¬u = "") (hs : ¬s = "")
    (hc : env.cookiesCfg = CookiesCfg.ok)
    (hb : env.browserConnect = Except.ok ())
    (hp : env.newPage = Except.ok ())
    (hk : env.pageCookiesOk = true)
    (hn : env.navResult = Except.ok (some r))
    (hct : strIncludes (r.contentType.getD "") "application/pdf" = false) :
    (POST env u s).2
      = Event.browserAcquired
          :: (gateTrace env ++ Event.locate :: (downloadPart env s).2)
          ++ [Event.browserReleased] := by
  simp [POST, tryBody, afterBrowser, indirectBranch, cookiesMsg,
        hu, hs, hc, hb, hp, hk, hn, hct]

/-- C9: the interstitial wait is bounded by the five-second constant; a
control appearing within the bound is clicked exactly once, and without
one no click happens and the run is not failed at this step: it always
proceeds to locating the download link. -/
theorem C9_gate (env : Env) (u s : String) (r : Response)
    (hu : ¬u = "") (hs : ¬s = "")
    (hc : env.cookiesCfg = CookiesCfg.ok)
    (hb : env.browserConnect = Except.ok ())
    (hp : env.newPage = Except.ok ())
    (hk : env.pageCookiesOk = true)
    (hn : env.navResult = Except.ok (some r))
    (hct : strIncludes (r.contentType.getD "") "application/pdf" = false) :
    GATE_TIMEOUT_MS = 5000
    ∧ countEv Event.gateClick (POST env u s).2 = (if gateFound env then 1 else 0)
    ∧ (∀ t, env.gateAppearsMs = some t → t ≤ GATE_TIMEOUT_MS →
        countEv Event.gateClick (POST env u s).2 = 1)
    ∧ Event.locate ∈ (POST env u s).2 := by
  have htr := post_indirect_trace env u s r hu hs hc hb hp hk hn hct
  have hcount : countEv Event.gateClick (POST env u s).2 = (if gateFound env then 1 else 0) := by
    rw [htr]
    rcases downloadPart_events env s with hd | ⟨k, b, hd⟩ <;>
      rw [hd] <;> cases hgf : gateFound env <;> simp [gateTrace, hgf, countEv]
  refine ⟨rfl, hcount, ?_, ?_⟩
  · intro t hg ht
    rw [hcount]
    have : gateFound env = true := by
      simp [gateFound, hg]
      exact ht
    simp [this]
  · rw [htr]
    simp

/-- C9 witness: concrete run with a control appearing after three
seconds. -/
theorem C9_witness :
    GATE_TIMEOUT_MS = 5000
    ∧ countEv Event.gateClick (POST envGate "u" "sl").2 = (if gateFound envGate then 1 else 0)
    ∧ countEv Event.gateClick (POST envGate "u" "sl").2 = 1
    ∧ Event.locate ∈ (POST envGate "u" "sl").2 := by
  have h := C9_gate envGate "u" "sl"
      { status := 404, contentType := some "text/html", body := [] }
      (by decide) (by decide) (by decide) (by decide) (by decide) (by decide)
      (by decide) (by decide)
  exact ⟨h.1, h.2.1, h.2.2.1 3000 (by decide) (by decide), h.2.2.2⟩

/-- C4 counterexample: a located download whose declared content-type is
HTML is uploaded and the run succeeds, and a direct response declaring a
PDF with an empty body is uploaded and the run succeeds; in neither case
is a download error reported or the put suppressed. -/
theorem C4_counterexample :
    (envNonPdfDl.dlResult
        = Except.ok (some { status := 200, contentType := some "text/html", body := [1, 2, 3] })
      ∧ (POST envNonPdfDl "https://imslp.org/wiki/T" "sl").1.body
          = ApiBody.success (publicUrl "sl")
      ∧ Event.s3Put (newKey "sl") [1, 2, 3] ∈ (POST envNonPdfDl "https://imslp.org/wiki/T" "sl").2)
    ∧ (envEmptyDirect.navResult
        = Except.ok (some { status := 200, contentType := some "application/pdf", body := [] })
      ∧ (POST envEmptyDirect "https://imslp.org/wiki/T" "sl").1.body
          = ApiBody.success (publicUrl "sl")
      ∧ Event.s3Put (newKey "sl") [] ∈ (POST envEmptyDirect "https://imslp.org/wiki/T" "sl").2) := by
  decide

/-- C4 amended: in the download-page branch an empty downloaded payload
fails the run with the empty-download error before any put is issued;
the declared content-type of the downloaded payload is never inspected. -/
theorem C4_empty_download (env : Env) (u s : String) (r rdl : Response) (l : String)
    (hu : ¬u = "") (hs : ¬s = "")
    (hc : env.cookiesCfg = CookiesCfg.ok)
    (hb : env.browserConnect = Except.ok ())
    (hp : env.newPage = Except.ok ())
    (hk : env.pageCookiesOk = true)
    (hn : env.navResult = Except.ok (some r))
    (hct : strIncludes (r.contentType.getD "") "application/pdf" = false)
    (hl : foundHref env.domLinks = some l)
    (hdl : env.dlResult = Except.ok (some rdl))
    (hemp : rdl.body = []) :
    (POST env u s).1
      = ⟨500, ApiBody.failure "Failed to process PDF" (some "Downloaded PDF is empty")⟩
    ∧ ∀ k b, Event.s3Put k b ∉ (POST env u s).2 := by
  have hdp : downloadPart env s = (Except.error "Downloaded PDF is empty", []) := by
    simp [downloadPart, hl, hdl, hemp]
  constructor
  · simp [POST, tryBody, afterBrowser, indirectBranch, cookiesMsg, catchOut,
          hu, hs, hc, hb, hp, hk, hn, hct, hdp]
  · intro k b
    have htr := post_indirect_trace env u s r hu hs hc hb hp hk hn hct
    rw [htr, hdp]
    cases hgf : gateFound env <;> simp [gateTrace, hgf]

/-- C4 witness: concrete empty download. -/
theorem C4_witness :
    (POST envEmptyIndirect "u" "sl").1
      = ⟨500, ApiBody.failure "Failed to process PDF" (some "Downloaded PDF is empty")⟩
    ∧ Event.s3Put "k" [7] ∉ (POST envEmptyIndirect "u" "sl").2 := by
  have h := C4_empty_download envEmptyIndirect "u" "sl"
      { status := 200, contentType := some "text/html", body := [] }
      { status := 200, contentType := some "application/pdf", body := [] }
      "https://host/x.pdf"
      (by decide) (by decide) (by decide) (by decide) (by decide) (by decide)
      (by decide) (by decide) (by decide) (by decide) (by decide)
  exact ⟨h.1, h.2 "k" [7]⟩

/-- C5 counterexample: a 404 source response is not fatal; when its page
still exposes a download link the run completes successfully. -/
theorem C5_counterexample :
    env404.navResult
      = Except.ok (some { status := 404, contentType := some "text/html", body := [] })
    ∧ (POST env404 "https://imslp.org/wiki/T" "bach").1
        = ⟨200, ApiBody.success (publicUrl "bach")⟩ := by
  decide

/-- C5 amended: the handler never inspects the HTTP status of the source
response, so a non-2xx status alone changes nothing; when processing of
such a page subsequently fails (no download link), the endpoint returns
the structured failure with status 500 and no exception escapes. -/
theorem C5_status_ignored :
    (∀ (env : Env) (u s : String) (r : Response) (st1 st2 : Nat),
        POST { env with navResult := Except.ok (some { r with status := st1 }) } u s
        = POST { env with navResult := Except.ok (some { r with status := st2 }) } u s)
    ∧ (∀ (env : Env) (u s : String) (r : Response),
        ¬u = "" → ¬s = "" → env.cookiesCfg = CookiesCfg.ok →
        env.browserConnect = Except.ok () → env.newPage = Except.ok () →
        env.pageCookiesOk = true → env.navResult = Except.ok (some r) →
        strIncludes (r.contentType.getD "") "application/pdf" = false →
        foundHref env.domLinks = none →
        (POST env u s).1
          = ⟨500, ApiBody.failure "Failed to process PDF"
              (some "No download link found on IMSLP page")⟩) := by
  constructor
  · intro env u s r st1 st2
    cases env
    cases r
    rfl
  · intro env u s r hu hs hc hb hp hk hn hct hl
    have hdp : downloadPart env s = (Except.error "No download link found on IMSLP page", []) := by
      simp [downloadPart, hl]
    simp [POST, tryBody, afterBrowser, indirectBranch, cookiesMsg, catchOut,
          hu, hs, hc, hb, hp, hk, hn, hct, hdp]

/-- C5 witness: two concrete runs differing only in the 200 versus 404
source status coincide, and a concrete linkless 404 page produces the
structured 500 failure. -/
theorem C5_witness :
    POST { envOK with
            navResult := Except.ok (some { status := 200, contentType := some "text/html", body := [] }) }
        "u" "sl"
      = POST { envOK with
            navResult := Except.ok (some { status := 404, contentType := some "text/html", body := [] }) }
        "u" "sl"
    ∧ (POST envNoLink "u" "sl").1
        = ⟨500, ApiBody.failure "Failed to process PDF"
            (some "No download link found on IMSLP page")⟩ := by
  constructor
  · exact C5_status_ignored.1 envOK "u" "sl"
      { status := 0, contentType := some "text/html", body := [] } 200 404
  · exact C5_status_ignored.2 envNoLink "u" "sl"
      { status := 404, contentType := some "text/html", body := [] }
      (by decide) (by decide) (by decide) (by decide) (by decide) (by decide)
      (by decide) (by decide) (by decide)

/-- C3: the locator tries the four patterns in their fixed order and
returns the first pattern's match; a document with a qualifying anchor
yields that anchor URL even when a later-priority pattern occurs earlier
in the text; when no pattern matches, the proxy run fails with the
not-found error. -/
theorem C3_locator_priority :
    (∀ (c u : String), hrefPat c = some u → findPdfUrl c = some u)
    ∧ (∀ (c u : String), hrefPat c = none → dataIdPat c = some u → findPdfUrl c = some u)
    ∧ (∀ (c u : String), hrefPat c = none → dataIdPat c = none →
        jsonUrlPat c = some u → findPdfUrl c = some u)
    ∧ (∀ (c u : String), hrefPat c = none → dataIdPat c = none →
        jsonUrlPat c = none → winLocPat c = some u → findPdfUrl c = some u)
    ∧ (∀ c : String, hrefPat c = none → dataIdPat c = none →
        jsonUrlPat c = none → winLocPat c = none → findPdfUrl c = none)
    ∧ findPdfUrl anchorDoc = some "https://host/x.pdf"
    ∧ findPdfUrl multiDoc = some "https://host/b.pdf"
    ∧ (∀ (env : ProxyEnv) (u : String) (r : FResp),
        strIncludes u "imslp.org" = true → endsWithStr (lowerStr u) ".pdf" = false →
        env.pageFetch = Except.ok r → r.isOk = true → findPdfUrl r.text = none →
        proxyGET (some u) env = ProxyOut.jsonErr 404 "No PDF link found in IMSLP page") := by
  refine ⟨?_, ?_, ?_, ?_, ?_, by decide, by decide, ?_⟩
  · intro c u h1
    simp [findPdfUrl, h1]
  · intro c u h1 h2
    simp [findPdfUrl, h1, h2]
  · intro c u h1 h2 h3
    simp [findPdfUrl, h1, h2, h3]
  · intro c u h1 h2 h3 h4
    simp [findPdfUrl, h1, h2, h3, h4]
  · intro c h1 h2 h3 h4
    simp [findPdfUrl, h1, h2, h3, h4]
  · intro env u r hi he hpf hok hfind
    simp [proxyGET, hi, he, hpf, hok, hfind]

/-- C3 witness: a concrete document matched only by the second pattern. -/
theorem C3_witness : findPdfUrl dataIdDoc = some "https://host/a.pdf" :=
  C3_locator_priority.2.1 dataIdDoc "https://host/a.pdf" (by decide) (by decide)

/-- C10 counterexample: a URL whose path ends in the pdf extension but
which carries a query string is rejected with the invalid-content-type
error despite an octet-stream response, and an IMSLP page response
satisfying neither content-type condition is answered with the 404
not-found error rather than the 400 invalid-content-type error. -/
theorem C10_counterexample :
    (endsWithStr (lowerStr (urlPath "https://cdn.example/a.pdf?v=1")) ".pdf" = true
      ∧ proxEnvOctet.directFetch
          = Except.ok { status := 200, contentType := some "application/octet-stream",
                        text := "", bytes := [37, 80] }
      ∧ proxyGET (some "https://cdn.example/a.pdf?v=1") proxEnvOctet
          = ProxyOut.jsonErr 400 "Invalid content type")
    ∧ proxyGET (some "https://imslp.org/wiki/Page") proxEnvNoLink
        = ProxyOut.jsonErr 404 "No PDF link found in IMSLP page" := by
  decide

/-- C10 amended: a URL whose entire string, lowercased, ends in the pdf
extension always takes the direct branch, and an ok octet-stream
response there is served as PDF bytes; a direct-branch ok response whose
content-type contains neither the pdf nor the octet-stream type is
rejected with 400 invalid content type. -/
theorem C10_direct_branch (u : String) (env : ProxyEnv) (r : FResp) :
    (endsWithStr (lowerStr u) ".pdf" = true → env.directFetch = Except.ok r →
      r.isOk = true → optIncludes r.contentType "application/octet-stream" = true →
      proxyGET (some u) env = ProxyOut.pdfBytes r.bytes)
    ∧ ((strIncludes u "imslp.org" && !endsWithStr (lowerStr u) ".pdf") = false →
        env.directFetch = Except.ok r → r.isOk = true →
        optIncludes r.contentType "application/pdf" = false →
        optIncludes r.contentType "application/octet-stream" = false →
        proxyGET (some u) env = ProxyOut.jsonErr 400 "Invalid content type") := by
  constructor
  · intro he hdf hok hoct
    simp [proxyGET, he, hdf, hok, hoct]
  · intro hbranch hdf hok hpdf hoct
    simp [proxyGET, hbranch, hdf, hok, hpdf, hoct]

/-- C10 witness: a concrete query-free pdf URL with an octet-stream
response is served as PDF bytes, and a concrete HTML response in the
direct branch is rejected. -/
theorem C10_witness :
    proxyGET (some "https://cdn.example/a.pdf") proxEnvOctet = ProxyOut.pdfBytes [37, 80]
    ∧ proxyGET (some "https://cdn.example/page.html")
        { pageFetch := Except.error "unused", pdfFetch := Except.error "unused"
        , directFetch := Except.ok { status := 200, contentType := some "text/html",
                                     text := "", bytes := [1] } }
      = ProxyOut.jsonErr 400 "Invalid content type" := by
  constructor
  · exact (C10_direct_branch "https://cdn.example/a.pdf" proxEnvOctet
      { status := 200, contentType := some "application/octet-stream",
        text := "", bytes := [37, 80] }).1
      (by decide) (by decide) (by decide) (by decide)
  · exact (C10_direct_branch "https://cdn.example/page.html"
      { pageFetch := Except.error "unused", pdfFetch := Except.error "unused"
      , directFetch := Except.ok { status := 200, contentType := some "text/html",
                                   text := "", bytes := [1] } }
      { status := 200, contentType := some "text/html", text := "", bytes := [1] }).2
      (by decide) (by decide) (by decide) (by decide) (by decide)

/-- C7: a failed acquisition (non-ok response or thrown fetch) does not
abort the approval: the original source URL is recorded, the database
update and the spreadsheet call still run, and the acquisition outcome
changes nothing but the recorded URL. -/
theorem C7_fallback :
    (∀ (env : ApproveEnv) (orig : String),
        env.pdfOutcome = PdfOutcome.notOk ∨ env.pdfOutcome = PdfOutcome.netThrow →
        (handleApprove env orig).recordedUrl = orig
        ∧ ApproveStep.callDb orig ∈ (handleApprove env orig).steps
        ∧ ApproveStep.callSheets orig ∈ (handleApprove env orig).steps)
    ∧ (∀ (env : ApproveEnv) (orig : String) (p1 p2 : PdfOutcome),
        ((handleApprove { env with pdfOutcome := p1 } orig).steps.map stepTag)
        = ((handleApprove { env with pdfOutcome := p2 } orig).steps.map stepTag)) := by
  constructor
  · rintro env orig (h | h) <;> refine ⟨?_, ?_, ?_⟩ <;> simp [handleApprove, h]
  · intro env orig p1 p2
    cases p1 <;> cases p2 <;> cases env.dbOutcome <;> simp [handleApprove, stepTag]

/-- C7 witness: concrete failed acquisition still records the original
URL and performs both collaborator calls. -/
theorem C7_witness :
    (handleApprove ⟨PdfOutcome.notOk, CallOutcome.ok, CallOutcome.ok⟩ "orig").recordedUrl = "orig"
    ∧ ApproveStep.callDb "orig"
        ∈ (handleApprove ⟨PdfOutcome.notOk, CallOutcome.ok, CallOutcome.ok⟩ "orig").steps
    ∧ ApproveStep.callSheets "orig"
        ∈ (handleApprove ⟨PdfOutcome.notOk, CallOutcome.ok, CallOutcome.ok⟩ "orig").steps :=
  C7_fallback.1 ⟨PdfOutcome.notOk, CallOutcome.ok, CallOutcome.ok⟩ "orig" (Or.inl rfl)

/-- The initial queue state satisfies the invariant. -/
theorem qinv_init : QInv QState.init := by
  refine ⟨by decide, by decide, by decide, by decide⟩

/-- add preserves the invariant. -/
theorem qinv_enqueue {s : QState} (h : QInv s) : QInv (enqueueF s) := by
  obtain ⟨h1, h2, h3, h4⟩ := h
  cases hp : s.processing with
  | true =>
    have he : enqueueF s = { s with queue := s.queue ++ [s.nextId], nextId := s.nextId + 1 } := by
      simp [enqueueF, startNext, hp]
    rw [he]
    refine ⟨h1, by simpa using h2, ?_, ?_⟩
    · intro hq
      simp [hp] at hq
    · show s.started ++ (s.queue ++ [s.nextId]) = List.range (s.nextId + 1)
      rw [← List.append_assoc, h4, List.range_succ]
  | false =>
    have hr : s.running = [] := by
      rcases hre : s.running with _ | ⟨a, l⟩
      · rfl
      · exact absurd (hp ▸ h2.mpr (by simp [hre])) (by simp)
    have hq : s.queue = [] := h3 hp
    have he : enqueueF s
        = { s with nextId := s.nextId + 1, queue := [], processing := true,
                   running := s.running ++ [s.nextId], started := s.started ++ [s.nextId] } := by
      simp [enqueueF, startNext, hp, hq]
    rw [he]
    refine ⟨?_, ?_, ?_, ?_⟩
    · show (s.running ++ [s.nextId]).length ≤ 1
      simp [hr]
    · show (true = true ↔ s.running ++ [s.nextId] ≠ [])
      simp [hr]
    · intro hpf
      simp at hpf
    · show (s.started ++ [s.nextId]) ++ [] = List.range (s.nextId + 1)
      have hst : s.started = List.range s.nextId := by simpa [hq] using h4
      simp [hst, List.range_succ]

/-- Task completion preserves the invariant. -/
theorem qinv_finish {s : QState} (b : Bool) (h : QInv s) : QInv (finishF s b) := by
  obtain ⟨h1, h2, h3, h4⟩ := h
  rcases hr : s.running with _ | ⟨t, rest⟩
  · have he : finishF s b = s := by simp [finishF, hr]
    rw [he]
    exact ⟨h1, h2, h3, h4⟩
  · have hrest : rest = [] := by
      rw [hr] at h1
      simp at h1
      exact h1
    rcases hq : s.queue with _ | ⟨u, q2⟩
    · have he : finishF s b
          = { s with running := [], processing := false,
                     settled := s.settled ++ [(t, b)] } := by
        simp [finishF, startNext, hr, hrest, hq]
      rw [he]
      refine ⟨by simp, by simp, fun _ => hq, h4⟩
    · have he : finishF s b
          = { s with running := [u], processing := true, queue := q2,
                     started := s.started ++ [u], settled := s.settled ++ [(t, b)] } := by
        simp [finishF, startNext, hr, hrest, hq]
      rw [he]
      refine ⟨by simp, by simp, ?_, ?_⟩
      · intro hpf
        simp at hpf
      · show (s.started ++ [u]) ++ q2 = List.range s.nextId
        rw [List.append_assoc]
        simpa [hq] using h4

/-- Every reachable queue state satisfies the invariant. -/
theorem reach_qinv {s : QState} (h : Reach s) : QInv s := by
  induction h with
  | init => exact qinv_init
  | enqueue _ ih => exact qinv_enqueue ih
  | finish b _ ih => exact qinv_finish b ih

/-- Draining an invariant state with enough completions starts every
enqueued task in arrival order and settles each task once with its own
outcome. -/
theorem drain_spec (bs : List Bool) : ∀ s : QState, QInv s →
    s.queue.length + s.running.length ≤ bs.length →
    (drain s bs).started = List.range s.nextId
    ∧ (drain s bs).settled = s.settled ++ (s.running ++ s.queue).zip bs := by
  induction bs with
  | nil =>
    intro s h hlen
    obtain ⟨h1, h2, h3, h4⟩ := h
    have hlen0 : s.queue.length + s.running.length ≤ 0 := by simpa using hlen
    have hq : s.queue = [] := List.length_eq_zero.mp (by omega)
    have hr : s.running = [] := List.length_eq_zero.mp (by omega)
    constructor
    · show s.started = List.range s.nextId
      simpa [hq] using h4
    · simp [drain, hr, hq]
  | cons b bs ih =>
    intro s h hlen
    obtain ⟨h1, h2, h3, h4⟩ := h
    have hd2 : drain s (b :: bs) = drain (finishF s b) bs := rfl
    rcases hr : s.running with _ | ⟨t, rest⟩
    · have hpf : s.processing = false := by
        cases hpp : s.processing with
        | false => rfl
        | true => exact absurd (h2.mp hpp) (by simp [hr])
      have hq : s.queue = [] := h3 hpf
      have he : finishF s b = s := by simp [finishF, hr]
      rw [hd2, he]
      have hih := ih s ⟨h1, h2, h3, h4⟩ (by simp [hq, hr])
      refine ⟨hih.1, ?_⟩
      rw [hih.2]
      simp [hq, hr]
    · have hrest : rest = [] := by
        rw [hr] at h1
        simp at h1
        exact h1
      subst hrest
      rw [hr] at hlen
      rcases hq : s.queue with _ | ⟨u, q2⟩
      · have he : finishF s b
            = { s with running := [], processing := false,
                       settled := s.settled ++ [(t, b)] } := by
          simp [finishF, startNext, hr, hq]
        have hinv2 : QInv (finishF s b) := qinv_finish b ⟨h1, h2, h3, h4⟩
        have hlen2 : (finishF s b).queue.length + (finishF s b).running.length ≤ bs.length := by
          rw [he]
          simp [hq]
        have hstep := ih (finishF s b) hinv2 hlen2
        have hnext : (finishF s b).nextId = s.nextId := by rw [he]
        rw [hd2]
        constructor
        · rw [hstep.1, hnext]
        · rw [hstep.2, he]
          simp [hq]
      · have he : finishF s b
            = { s with running := [u], processing := true, queue := q2,
                       started := s.started ++ [u], settled := s.settled ++ [(t, b)] } := by
          simp [finishF, startNext, hr, hq]
        have hinv2 : QInv (finishF s b) := qinv_finish b ⟨h1, h2, h3, h4⟩
        have hlen2 : (finishF s b).queue.length + (finishF s b).running.length ≤ bs.length := by
          rw [he]
          rw [hq] at hlen
          simp at hlen ⊢
          omega
        have hstep := ih (finishF s b) hinv2 hlen2
        have hnext : (finishF s b).nextId = s.nextId := by rw [he]
        rw [hd2]
        constructor
        · rw [hstep.1, hnext]
        · rw [hstep.2, he]
          simp

/-- C8: at every reachable state of the ApprovalQueue at most one task
executes; tasks begin execution in the order they were enqueued (the
start log followed by the pending queue is exactly the arrival order);
and draining with any outcomes, rejections included, still starts every
enqueued task and settles each caller promise exactly once with its own
task's outcome. -/
theorem C8_queue_serializes (s : QState) (h : Reach s) :
    s.running.length ≤ 1
    ∧ s.started ++ s.queue = List.range s.nextId
    ∧ (∀ bs : List Bool, s.queue.length + s.running.length ≤ bs.length →
        (drain s bs).started = List.range s.nextId
        ∧ (drain s bs).settled = s.settled ++ (s.running ++ s.queue).zip bs) := by
  have hi := reach_qinv h
  exact ⟨hi.1, hi.2.2.2, fun bs hlen => drain_spec bs s hi hlen⟩

/-- C8 witness: two enqueued tasks, the first completing normally and
the second throwing; both start in order and both settle. -/
theorem C8_witness :
    (enqueueF (enqueueF QState.init)).running.length ≤ 1
    ∧ (enqueueF (enqueueF QState.init)).started ++ (enqueueF (enqueueF QState.init)).queue
        = List.range (enqueueF (enqueueF QState.init)).nextId
    ∧ (drain (enqueueF (enqueueF QState.init)) [true, false]).started
        = List.range (enqueueF (enqueueF QState.init)).nextId
    ∧ (drain (enqueueF (enqueueF QState.init)) [true, false]).settled
        = (enqueueF (enqueueF QState.init)).settled
          ++ ((enqueueF (enqueueF QState.init)).running
              ++ (enqueueF (enqueueF QState.init)).queue).zip [true, false] := by
  have h := C8_queue_serializes (enqueueF (enqueueF QState.init))
      (Reach.enqueue (Reach.enqueue Reach.init))
  have h2 := h.2.2 [true, false] (by decide)
  exact ⟨h.1, h.2.1, h2.1, h2.2⟩

end ScoreReviewer
